import Mathlib

/-!
The f1tenth_multiplexer node: arbitration between joystick and gap-follow commands

Shallow embedding of `src/f1tenth_multiplexer.cpp`.  The node keeps the last
joystick command, the last gap-follow command and a gap-follow enable flag
with the time it was last received; a 20 ms timer erases what is older than
one second, picks a drive command by priority and publishes it.

The callbacks read the node clock; here each clock reading is an argument:
`timer_callback` reads it once at the top and once more inside each call of
`validate_ackermann_msg`, so a tick carries three readings.
Publishing is modelled by returning the list of messages handed to
`m_drive_pub->publish` during the call, in order.
-/

namespace F1Tenth

/-- Modelled from the spec: `rclcpp::Time` is declared outside the repository; an
instant is a count of nanoseconds on the node clock. -/
abbrev Time := Int

/-- Modelled from the spec: `rclcpp::Duration` is declared outside the repository;
the difference of two instants, in nanoseconds. -/
abbrev Duration := Int

/-- The literal `1s` of `std::chrono_literals`, in nanoseconds. -/
def one_second : Duration := 1000000000

/-- Modelled from the spec: the floating-point fields of the drive message are only
ever copied or set to the literal `0.0`; no arithmetic is done on them, so they
are held as exact rationals. -/
abbrev float32 := ℚ

/-- Message `ackermann_msgs/AckermannDrive` (declared outside the repository). -/
structure AckermannDrive where
  steering_angle : float32
  steering_angle_velocity : float32
  speed : float32
  acceleration : float32
  jerk : float32
  deriving DecidableEq, Repr

/-- Message `std_msgs/Header`. -/
structure Header where
  stamp : Time
  frame_id : String
  deriving DecidableEq, Repr

/-- Message `ackermann_msgs/AckermannDriveStamped`. -/
structure AckermannDriveStamped where
  header : Header
  drive : AckermannDrive
  deriving DecidableEq, Repr

/-- A value-initialised `AckermannDrive`: every field is zero. -/
def AckermannDrive.zero : AckermannDrive :=
  { steering_angle := 0, steering_angle_velocity := 0, speed := 0,
    acceleration := 0, jerk := 0 }

/-- A value-initialised `std_msgs/Header`. -/
def Header.zero : Header := { stamp := 0, frame_id := "" }

/-- The two motion values the arbitration is specified on. -/
def AckermannDrive.motion (d : AckermannDrive) : float32 × float32 :=
  (d.steering_angle, d.speed)

/-- The data members of class `F1TenthMultiplexer` that the callbacks read and
write (subscriptions, publisher and timer handles carry no data). -/
structure F1TenthMultiplexer where
  m_gap_follow_enabled_time : Time
  m_gap_follow_enabled : Bool
  m_joystick_ackermann_msg : Option AckermannDriveStamped
  m_gap_follow_ackermann_msg : Option AckermannDriveStamped
  deriving DecidableEq, Repr

/-- The members as the constructor leaves them: the enable time is
default-constructed (zero nanoseconds), the flag is `false`, both optionals are
empty. -/
def F1TenthMultiplexer.init : F1TenthMultiplexer :=
  { m_gap_follow_enabled_time := 0
    m_gap_follow_enabled := false
    m_joystick_ackermann_msg := none
    m_gap_follow_ackermann_msg := none }

/-- `joystick_callback`: stores the message. -/
def joystick_callback (s : F1TenthMultiplexer) (msg : AckermannDriveStamped) :
    F1TenthMultiplexer :=
  { s with m_joystick_ackermann_msg := some msg }

/-- `gap_follow_callback`: stores the message. -/
def gap_follow_callback (s : F1TenthMultiplexer) (msg : AckermannDriveStamped) :
    F1TenthMultiplexer :=
  { s with m_gap_follow_ackermann_msg := some msg }

/-- The lambda subscribed to `gap_follow_enable`: records the clock reading and
the received flag. -/
def gap_follow_enable_callback (s : F1TenthMultiplexer) (data : Bool) (now : Time) :
    F1TenthMultiplexer :=
  { s with m_gap_follow_enabled_time := now, m_gap_follow_enabled := data }

/-- The clock readings taken during one `timer_callback`: `current_time` at the
top of the callback, and one inside each call of `validate_ackermann_msg`
(taken only when the optional holds a message). -/
structure ClockReads where
  current_time : Time
  joystick_time : Time
  gap_follow_time : Time
  deriving DecidableEq, Repr

/-- The readings of a clock that does not run backwards during the callback. -/
def ClockReads.ordered (r : ClockReads) : Prop :=
  r.current_time ≤ r.joystick_time ∧ r.joystick_time ≤ r.gap_follow_time

/-- Each reading of `a` is no later than the matching reading of `b`. -/
def ClockReads.before (a b : ClockReads) : Prop :=
  a.current_time ≤ b.current_time ∧ a.joystick_time ≤ b.joystick_time ∧
    a.gap_follow_time ≤ b.gap_follow_time

instance (r : ClockReads) : Decidable r.ordered := by
  unfold ClockReads.ordered; infer_instance

instance (a b : ClockReads) : Decidable (a.before b) := by
  unfold ClockReads.before; infer_instance

/-- `validate_ackermann_msg`: an empty optional is left alone without reading the
clock; otherwise the clock is read (`current_time` is that reading) and a
message whose stamp is more than one second before it is erased. -/
def validate_ackermann_msg (msg : Option AckermannDriveStamped) (current_time : Time) :
    Option AckermannDriveStamped :=
  match msg with
  | none => none
  | some m =>
    let time_diff : Duration := current_time - m.header.stamp
    if time_diff > one_second then none else some m

/-- The enable refresh check at the top of `timer_callback`. -/
def refresh_enabled (s : F1TenthMultiplexer) (current_time : Time) : Bool :=
  if s.m_gap_follow_enabled then
    let time_diff : Duration := current_time - s.m_gap_follow_enabled_time
    if time_diff > one_second then false else true
  else false

/-- The selection in `timer_callback`, on the members as they are after the
refresh check and the two validations: joystick first, then gap follow when
enabled, else the zero command `output` was initialised with. -/
def select_output (joystick gap_follow : Option AckermannDriveStamped) (enabled : Bool) :
    AckermannDrive :=
  let output : AckermannDrive := { AckermannDrive.zero with steering_angle := 0, speed := 0 }
  match joystick with
  | some j => j.drive
  | none =>
    match gap_follow, enabled with
    | some g, true => g.drive
    | _, _ => output

/-- `timer_callback`: returns the members after the call and the messages
published during it.  The enable check and the published stamp use the reading
taken at the top; each `validate_ackermann_msg` call uses its own reading. -/
def timer_callback (s : F1TenthMultiplexer) (r : ClockReads) :
    F1TenthMultiplexer × List AckermannDriveStamped :=
  let current_time := r.current_time
  let enabled := refresh_enabled s current_time
  let joystick := validate_ackermann_msg s.m_joystick_ackermann_msg r.joystick_time
  let gap_follow := validate_ackermann_msg s.m_gap_follow_ackermann_msg r.gap_follow_time
  let output := select_output joystick gap_follow enabled
  let output_msg : AckermannDriveStamped :=
    { header := { Header.zero with stamp := current_time }, drive := output }
  ({ m_gap_follow_enabled_time := s.m_gap_follow_enabled_time
     m_gap_follow_enabled := enabled
     m_joystick_ackermann_msg := joystick
     m_gap_follow_ackermann_msg := gap_follow },
   [output_msg])

/-- The drive commands published by one `timer_callback`. -/
def published_drives (s : F1TenthMultiplexer) (r : ClockReads) : List AckermannDrive :=
  (timer_callback s r).2.map AckermannDriveStamped.drive

/-- The motion values `(steering_angle, speed)` published by one `timer_callback`. -/
def published_motion (s : F1TenthMultiplexer) (r : ClockReads) :
    List (float32 × float32) :=
  (published_drives s r).map AckermannDrive.motion

/-- A slot is fresh at `now` with command `c`: it holds `c` and `now - stamp` is
at most one second. -/
def fresh (slot : Option AckermannDriveStamped) (now : Time) (c : AckermannDriveStamped) :
    Prop :=
  slot = some c ∧ now - c.header.stamp ≤ one_second

/-- A slot is empty, or holds a command more than one second old at `now`. -/
def empty_or_expired (slot : Option AckermannDriveStamped) (now : Time) : Prop :=
  ∀ c, slot = some c → now - c.header.stamp > one_second

instance (slot : Option AckermannDriveStamped) (now : Time) (c : AckermannDriveStamped) :
    Decidable (fresh slot now c) := by
  unfold fresh; infer_instance

instance (slot : Option AckermannDriveStamped) (now : Time) :
    Decidable (empty_or_expired slot now) :=
  match slot with
  | none => isTrue (by intro c h; cases h)
  | some m =>
    if h : now - m.header.stamp > one_second then
      isTrue (by intro c hc; cases hc; exact h)
    else isFalse (fun hall => h (hall m rfl))

/-! ## Events and runs -/

/-- What the executor can deliver to the node: a message on one of the three
subscriptions (the enable lambda also reads the clock), or a timer expiry with
the clock readings taken during `timer_callback`. -/
inductive Event where
  | joystick (msg : AckermannDriveStamped)
  | gap_follow (msg : AckermannDriveStamped)
  | gap_follow_enable (data : Bool) (now : Time)
  | timer (r : ClockReads)
  deriving DecidableEq, Repr

/-- One callback run to completion. -/
def step (s : F1TenthMultiplexer) : Event → F1TenthMultiplexer
  | .joystick msg => joystick_callback s msg
  | .gap_follow msg => gap_follow_callback s msg
  | .gap_follow_enable data now => gap_follow_enable_callback s data now
  | .timer r => (timer_callback s r).1

/-- The callbacks of a list of events, oldest first, run one after another. -/
def run (s : F1TenthMultiplexer) (evs : List Event) : F1TenthMultiplexer :=
  evs.foldl step s

/-- Whether the event is a message on `gap_follow_enable`. -/
def Event.is_enable_signal : Event → Bool
  | .gap_follow_enable _ _ => true
  | _ => false

/-- The flag and receipt time of an enable signal; `none` for other events. -/
def Event.enable_signal : Event → Option (Bool × Time)
  | .gap_follow_enable data now => some (data, now)
  | _ => none

/-- The most recent enable signal of a list of events (oldest first): its flag
and the clock reading at its receipt. -/
def last_enable_signal : List Event → Option (Bool × Time)
  | [] => none
  | e :: evs => (last_enable_signal evs).orElse (fun _ => e.enable_signal)

/-- Every timer expiry in the list reads, at the top of the callback, a clock
value of at most `bound`. -/
def ticks_within (bound : Time) (evs : List Event) : Prop :=
  ∀ r, Event.timer r ∈ evs → r.current_time ≤ bound

/-- Every timer expiry in the list reads, in the gap-follow validation, a clock
value of at most `bound`. -/
def gap_follow_reads_within (bound : Time) (evs : List Event) : Prop :=
  ∀ r, Event.timer r ∈ evs → r.gap_follow_time ≤ bound

/-! ## The tick with its guarded operations made explicit

`std::optional::value()` throws on an empty optional, `operator->` on an empty
optional is undefined, and `m_gap_follow_enabled_time` has no meaningful value
until the enable lambda has assigned it.  The checked tick raises a fault at
each of these; whether the enable time has been assigned is tracked next to the
members. -/

/-- The ways the checked tick can fail. -/
inductive Fault where
  | bad_optional_access
  | empty_optional_dereference
  | enable_time_never_set
  deriving DecidableEq, Repr

/-- The members together with a record of whether the enable lambda has ever
assigned `m_gap_follow_enabled_time`. -/
structure Instrumented where
  members : F1TenthMultiplexer
  enable_time_set : Bool
  deriving DecidableEq, Repr

/-- The instrumented members after construction. -/
def Instrumented.init : Instrumented :=
  { members := F1TenthMultiplexer.init, enable_time_set := false }

/-- `std::optional::value()`. -/
def optional_value {α : Type} : Option α → Except Fault α
  | some a => .ok a
  | none => .error .bad_optional_access

/-- `std::optional::operator->`. -/
def optional_arrow {α : Type} : Option α → Except Fault α
  | some a => .ok a
  | none => .error .empty_optional_dereference

/-- `validate_ackermann_msg` with the dereference checked. -/
def validate_ackermann_msg_checked (msg : Option AckermannDriveStamped)
    (current_time : Time) : Except Fault (Option AckermannDriveStamped) :=
  if !msg.isSome then .ok msg
  else do
    let m ← optional_arrow msg
    let time_diff : Duration := current_time - m.header.stamp
    if time_diff > one_second then .ok none else .ok msg

/-- The enable refresh check with the read of the stored time checked. -/
def refresh_enabled_checked (c : Instrumented) (current_time : Time) : Except Fault Bool :=
  if c.members.m_gap_follow_enabled then
    if c.enable_time_set then
      let time_diff : Duration := current_time - c.members.m_gap_follow_enabled_time
      if time_diff > one_second then .ok false else .ok true
    else .error .enable_time_never_set
  else .ok false

/-- The selection with `value()` checked. -/
def select_output_checked (joystick gap_follow : Option AckermannDriveStamped)
    (enabled : Bool) : Except Fault AckermannDrive :=
  let output : AckermannDrive := { AckermannDrive.zero with steering_angle := 0, speed := 0 }
  if joystick.isSome then do
    let j ← optional_value joystick
    .ok j.drive
  else if gap_follow.isSome && enabled then do
    let g ← optional_value gap_follow
    .ok g.drive
  else .ok output

/-- `timer_callback` with its guarded operations checked. -/
def timer_callback_checked (c : Instrumented) (r : ClockReads) :
    Except Fault (Instrumented × List AckermannDriveStamped) := do
  let current_time := r.current_time
  let enabled ← refresh_enabled_checked c current_time
  let joystick ←
    validate_ackermann_msg_checked c.members.m_joystick_ackermann_msg r.joystick_time
  let gap_follow ←
    validate_ackermann_msg_checked c.members.m_gap_follow_ackermann_msg r.gap_follow_time
  let output ← select_output_checked joystick gap_follow enabled
  let output_msg : AckermannDriveStamped :=
    { header := { Header.zero with stamp := current_time }, drive := output }
  .ok ({ members :=
          { m_gap_follow_enabled_time := c.members.m_gap_follow_enabled_time
            m_gap_follow_enabled := enabled
            m_joystick_ackermann_msg := joystick
            m_gap_follow_ackermann_msg := gap_follow }
         enable_time_set := c.enable_time_set },
       [output_msg])

/-- One callback on the instrumented members. -/
def step_checked (c : Instrumented) : Event → Except Fault Instrumented
  | .joystick msg => .ok { c with members := joystick_callback c.members msg }
  | .gap_follow msg => .ok { c with members := gap_follow_callback c.members msg }
  | .gap_follow_enable data now =>
    .ok { members := gap_follow_enable_callback c.members data now, enable_time_set := true }
  | .timer r => (timer_callback_checked c r).map Prod.fst

/-- The callbacks of a list of events on the instrumented members, stopping at
the first fault. -/
def run_checked (c : Instrumented) : List Event → Except Fault Instrumented
  | [] => .ok c
  | e :: evs =>
    match step_checked c e with
    | .ok c1 => run_checked c1 evs
    | .error f => .error f

/-! ## Sequences of ticks and scenarios -/

/-- The motion values published by a sequence of ticks, one entry per tick, each
tick run on the members the previous one left. -/
def tick_motions (s : F1TenthMultiplexer) :
    List ClockReads → List (List (float32 × float32))
  | [] => []
  | r :: rest => published_motion s r :: tick_motions (timer_callback s r).1 rest

/-- Whether the event is a message on `joystick_ackermann_cmd`. -/
def Event.is_joystick : Event → Bool
  | .joystick _ => true
  | _ => false

/-- The message of a gap-follow event; `none` for other events. -/
def Event.gap_follow_msg : Event → Option AckermannDriveStamped
  | .gap_follow msg => some msg
  | _ => none

/-- The most recently received gap-follow message of a list of events (oldest
first). -/
def last_gap_follow : List Event → Option AckermannDriveStamped
  | [] => none
  | e :: evs => (last_gap_follow evs).orElse (fun _ => e.gap_follow_msg)

/-! ## Concrete messages used to evaluate the model -/

/-- A joystick message with the neutral command, stamped at time zero. -/
def neutral_joystick_msg : AckermannDriveStamped :=
  { header := { stamp := 0, frame_id := "" }, drive := AckermannDrive.zero }

/-- A gap-follow message asking for steering 1/5 at speed 1, stamped at `t`. -/
def gap_follow_msg_at (t : Time) : AckermannDriveStamped :=
  { header := { stamp := t, frame_id := "" },
    drive := { AckermannDrive.zero with steering_angle := 1 / 5, speed := 1 } }

/-- A joystick message asking for steering 1/10 at speed 2, stamped at `t`. -/
def joystick_msg_at (t : Time) : AckermannDriveStamped :=
  { header := { stamp := t, frame_id := "" },
    drive := { AckermannDrive.zero with steering_angle := 1 / 10, speed := 2 } }

/-- Members holding the given slots, enabled since time zero. -/
def enabled_state (joystick gap_follow : Option AckermannDriveStamped) : F1TenthMultiplexer :=
  { m_gap_follow_enabled_time := 0
    m_gap_follow_enabled := true
    m_joystick_ackermann_msg := joystick
    m_gap_follow_ackermann_msg := gap_follow }

/-- A gap-follow message with the given steering angle and speed, stamped at `t`. -/
def gap_follow_msg_with (t : Time) (steering speed : float32) : AckermannDriveStamped :=
  { header := { stamp := t, frame_id := "" },
    drive := { AckermannDrive.zero with steering_angle := steering, speed := speed } }

/-- A joystick message with the given steering angle and speed, stamped at `t`. -/
def joystick_msg_with (t : Time) (steering speed : float32) : AckermannDriveStamped :=
  { header := { stamp := t, frame_id := "" },
    drive := { AckermannDrive.zero with steering_angle := steering, speed := speed } }

/-- Readings 40 ns apart, the first at `t`. -/
def reads_from (t : Time) : ClockReads :=
  { current_time := t, joystick_time := t + 40, gap_follow_time := t + 80 }

/-- Executable form of `ticks_within`. -/
def ticks_within_check (bound : Time) (evs : List Event) : Bool :=
  evs.all (fun e =>
    match e with
    | .timer r => decide (r.current_time ≤ bound)
    | _ => true)

/-- Executable form of `gap_follow_reads_within`. -/
def gap_follow_reads_within_check (bound : Time) (evs : List Event) : Bool :=
  evs.all (fun e =>
    match e with
    | .timer r => decide (r.gap_follow_time ≤ bound)
    | _ => true)


/-! ## Validation lemmas -/

theorem validate_of_fresh {slot : Option AckermannDriveStamped} {now : Time}
    {c : AckermannDriveStamped} (h : fresh slot now c) :
    validate_ackermann_msg slot now = some c := by
  obtain ⟨rfl, hage⟩ := h
  simp [validate_ackermann_msg, not_lt.mpr hage]

theorem validate_of_empty_or_expired {slot : Option AckermannDriveStamped} {now : Time}
    (h : empty_or_expired slot now) : validate_ackermann_msg slot now = none := by
  cases slot with
  | none => rfl
  | some m => simp [validate_ackermann_msg, h m rfl]

theorem validate_eq_some_iff (slot : Option AckermannDriveStamped) (now : Time)
    (c : AckermannDriveStamped) :
    validate_ackermann_msg slot now = some c ↔ fresh slot now c := by
  cases slot with
  | none => simp [validate_ackermann_msg, fresh]
  | some m =>
    by_cases h : now - m.header.stamp > one_second
    · simp only [validate_ackermann_msg, h, if_true, fresh]
      constructor
      · intro hc; cases hc
      · rintro ⟨hc, hage⟩
        cases hc
        exact absurd h (not_lt.mpr hage)
    · simp only [validate_ackermann_msg, h, if_false, fresh, Option.some.injEq]
      constructor
      · rintro rfl; exact ⟨rfl, not_lt.mp h⟩
      · rintro ⟨hc, _⟩; exact hc

theorem validate_of_late {slot : Option AckermannDriveStamped} {now : Time}
    {c : AckermannDriveStamped} (hc : slot = some c)
    (hlate : now > c.header.stamp + one_second) :
    validate_ackermann_msg slot now = none := by
  subst hc
  have h : now - c.header.stamp > one_second := by linarith
  simp [validate_ackermann_msg, h]

theorem empty_or_expired_mono {slot : Option AckermannDriveStamped} {a b : Time}
    (h : empty_or_expired slot a) (hab : a ≤ b) : empty_or_expired slot b := by
  intro c hc
  have := h c hc
  linarith

theorem empty_or_expired_none (now : Time) : empty_or_expired none now := by
  intro c h; cases h

/-! ## The enable flag along a run -/

theorem refresh_enabled_of_false {s : F1TenthMultiplexer} (now : Time)
    (h : s.m_gap_follow_enabled = false) : refresh_enabled s now = false := by
  simp [refresh_enabled, h]

theorem refresh_enabled_within {s : F1TenthMultiplexer} {now : Time}
    (h : s.m_gap_follow_enabled = true)
    (hw : now ≤ s.m_gap_follow_enabled_time + one_second) : refresh_enabled s now = true := by
  have hn : ¬ now - s.m_gap_follow_enabled_time > one_second := by
    intro hgt; linarith
  simp [refresh_enabled, h, hn]

theorem refresh_enabled_late (s : F1TenthMultiplexer) {now : Time}
    (hl : now > s.m_gap_follow_enabled_time + one_second) : refresh_enabled s now = false := by
  have hn : now - s.m_gap_follow_enabled_time > one_second := by linarith
  cases h : s.m_gap_follow_enabled <;> simp [refresh_enabled, h, hn]

theorem step_enabled_time_of_not_signal (s : F1TenthMultiplexer) (e : Event)
    (h : e.is_enable_signal = false) :
    (step s e).m_gap_follow_enabled_time = s.m_gap_follow_enabled_time := by
  cases e <;> first | rfl | simp [Event.is_enable_signal] at h

theorem step_enabled_false (s : F1TenthMultiplexer) (e : Event)
    (h : ∀ t, e ≠ Event.gap_follow_enable true t) (hs : s.m_gap_follow_enabled = false) :
    (step s e).m_gap_follow_enabled = false := by
  cases e with
  | joystick msg => exact hs
  | gap_follow msg => exact hs
  | gap_follow_enable data now =>
    cases data with
    | false => rfl
    | true => exact absurd rfl (h now)
  | timer r => exact refresh_enabled_of_false r.current_time hs

theorem run_cons (s : F1TenthMultiplexer) (e : Event) (evs : List Event) :
    run s (e :: evs) = run (step s e) evs := rfl

theorem run_append (s : F1TenthMultiplexer) (evs : List Event) (e : Event) :
    run s (evs ++ [e]) = step (run s evs) e := by
  simp [run, List.foldl_append]

theorem run_enabled_false (evs : List Event) :
    ∀ s : F1TenthMultiplexer, (∀ t, Event.gap_follow_enable true t ∉ evs) →
      s.m_gap_follow_enabled = false → (run s evs).m_gap_follow_enabled = false := by
  induction evs with
  | nil => intro s _ hs; exact hs
  | cons e evs ih =>
    intro s hno hs
    rw [run_cons]
    apply ih
    · intro t ht; exact hno t (List.mem_cons_of_mem _ ht)
    · apply step_enabled_false _ _ _ hs
      intro t he
      exact hno t (he ▸ List.mem_cons_self _ _)

theorem run_enabled_kept (evs : List Event) :
    ∀ (s : F1TenthMultiplexer) (t : Time), (∀ e ∈ evs, Event.is_enable_signal e = false) →
      ticks_within (t + one_second) evs →
      s.m_gap_follow_enabled = true → s.m_gap_follow_enabled_time = t →
      (run s evs).m_gap_follow_enabled = true ∧ (run s evs).m_gap_follow_enabled_time = t := by
  induction evs with
  | nil => intro s t _ _ hs ht; exact ⟨hs, ht⟩
  | cons e evs ih =>
    intro s t hno hticks hs ht
    rw [run_cons]
    apply ih (step s e) t
    · intro e1 he1; exact hno e1 (List.mem_cons_of_mem _ he1)
    · intro r hr; exact hticks r (List.mem_cons_of_mem _ hr)
    · cases e with
      | joystick msg => exact hs
      | gap_follow msg => exact hs
      | gap_follow_enable data now =>
        have := hno _ (List.mem_cons_self _ _)
        simp [Event.is_enable_signal] at this
      | timer r =>
        have hle : r.current_time ≤ t + one_second := hticks r (List.mem_cons_self _ _)
        exact refresh_enabled_within hs (ht ▸ hle)
    · rw [step_enabled_time_of_not_signal s e (hno e (List.mem_cons_self _ _))]
      exact ht

theorem last_enable_signal_append (evs : List Event) (e : Event) :
    last_enable_signal (evs ++ [e]) =
      match e with
      | .gap_follow_enable data now => some (data, now)
      | _ => last_enable_signal evs := by
  induction evs with
  | nil => cases e <;> rfl
  | cons e1 evs ih =>
    rw [List.cons_append, last_enable_signal, ih]
    cases e <;> rfl

/-- Along a run from the constructed node, the stored time is the receipt time
of the most recent enable signal, and the flag can be true only if that signal
carried `true`; before any signal the flag is false. -/
theorem enabled_reflects_last_signal (evs : List Event) :
    match last_enable_signal evs with
    | none => (run F1TenthMultiplexer.init evs).m_gap_follow_enabled = false
    | some (d, t) =>
      (run F1TenthMultiplexer.init evs).m_gap_follow_enabled_time = t ∧
        ((run F1TenthMultiplexer.init evs).m_gap_follow_enabled = true → d = true) := by
  induction evs using List.reverseRecOn with
  | nil => rfl
  | append_singleton evs e ih =>
    rw [last_enable_signal_append, run_append]
    cases e with
    | gap_follow_enable data now => exact ⟨rfl, fun h => h⟩
    | joystick msg => exact ih
    | gap_follow msg => exact ih
    | timer r =>
      show match last_enable_signal evs with
        | none => refresh_enabled (run F1TenthMultiplexer.init evs) r.current_time = false
        | some (d, t) =>
          (run F1TenthMultiplexer.init evs).m_gap_follow_enabled_time = t ∧
            (refresh_enabled (run F1TenthMultiplexer.init evs) r.current_time = true →
              d = true)
      cases hl : last_enable_signal evs with
      | none =>
        rw [hl] at ih
        exact refresh_enabled_of_false r.current_time ih
      | some r =>
        obtain ⟨d, t⟩ := r
        rw [hl] at ih
        refine ⟨ih.1, fun h => ih.2 ?_⟩
        cases hen : (run F1TenthMultiplexer.init evs).m_gap_follow_enabled with
        | true => rfl
        | false => rw [refresh_enabled_of_false r.current_time hen] at h; cases h

/-! ## The checked tick agrees with the tick -/

theorem validate_checked_eq (msg : Option AckermannDriveStamped) (now : Time) :
    validate_ackermann_msg_checked msg now = .ok (validate_ackermann_msg msg now) := by
  cases msg with
  | none => rfl
  | some m =>
    by_cases h : now - m.header.stamp > one_second
    · simp [validate_ackermann_msg_checked, validate_ackermann_msg, optional_arrow, h,
        bind, Except.bind]
    · simp [validate_ackermann_msg_checked, validate_ackermann_msg, optional_arrow, h,
        bind, Except.bind]

theorem select_checked_eq (joystick gap_follow : Option AckermannDriveStamped)
    (enabled : Bool) :
    select_output_checked joystick gap_follow enabled =
      .ok (select_output joystick gap_follow enabled) := by
  cases joystick <;> cases gap_follow <;> cases enabled <;> rfl

theorem refresh_checked_eq (c : Instrumented)
    (h : c.members.m_gap_follow_enabled = true → c.enable_time_set = true) (now : Time) :
    refresh_enabled_checked c now = .ok (refresh_enabled c.members now) := by
  cases hen : c.members.m_gap_follow_enabled with
  | false => simp [refresh_enabled_checked, refresh_enabled, hen]
  | true =>
    by_cases hd : now - c.members.m_gap_follow_enabled_time > one_second
    · simp [refresh_enabled_checked, refresh_enabled, hen, h hen, hd]
    · simp [refresh_enabled_checked, refresh_enabled, hen, h hen, hd]

theorem timer_checked_eq (c : Instrumented)
    (h : c.members.m_gap_follow_enabled = true → c.enable_time_set = true)
    (r : ClockReads) :
    timer_callback_checked c r =
      .ok ({ members := (timer_callback c.members r).1,
             enable_time_set := c.enable_time_set },
           (timer_callback c.members r).2) := by
  simp only [timer_callback_checked, refresh_checked_eq c h, validate_checked_eq,
    select_checked_eq, bind, Except.bind]
  rfl

theorem step_checked_ok (c : Instrumented)
    (h : c.members.m_gap_follow_enabled = true → c.enable_time_set = true) (e : Event) :
    ∃ c1, step_checked c e = .ok c1 ∧ c1.members = step c.members e ∧
      (c1.members.m_gap_follow_enabled = true → c1.enable_time_set = true) := by
  cases e with
  | joystick msg => exact ⟨_, rfl, rfl, h⟩
  | gap_follow msg => exact ⟨_, rfl, rfl, h⟩
  | gap_follow_enable data now => exact ⟨_, rfl, rfl, fun _ => rfl⟩
  | timer r =>
    refine ⟨{ members := (timer_callback c.members r).1,
              enable_time_set := c.enable_time_set }, ?_, rfl, ?_⟩
    · simp only [step_checked, timer_checked_eq c h]
      rfl
    · intro hen
      apply h
      cases hc : c.members.m_gap_follow_enabled with
      | true => rfl
      | false =>
        have hf : (timer_callback c.members r).1.m_gap_follow_enabled = false :=
          refresh_enabled_of_false r.current_time hc
        rw [hf] at hen
        cases hen

theorem run_checked_ok (evs : List Event) :
    ∀ c : Instrumented, (c.members.m_gap_follow_enabled = true → c.enable_time_set = true) →
      ∃ c1, run_checked c evs = .ok c1 ∧ c1.members = run c.members evs ∧
        (c1.members.m_gap_follow_enabled = true → c1.enable_time_set = true) := by
  induction evs with
  | nil => intro c h; exact ⟨c, rfl, rfl, h⟩
  | cons e evs ih =>
    intro c h
    obtain ⟨c1, hstep, hmem, hinv⟩ := step_checked_ok c h e
    obtain ⟨c2, hrun, hmem2, hinv2⟩ := ih c1 hinv
    refine ⟨c2, ?_, ?_, hinv2⟩
    · simp only [run_checked, hstep]
      exact hrun
    · rw [hmem2, hmem, run_cons]


theorem ticks_within_of_check {bound : Time} {evs : List Event}
    (h : ticks_within_check bound evs = true) : ticks_within bound evs := by
  intro r hmem
  have := List.all_eq_true.mp h (Event.timer r) hmem
  simpa using this

theorem gap_follow_reads_within_of_check {bound : Time} {evs : List Event}
    (h : gap_follow_reads_within_check bound evs = true) :
    gap_follow_reads_within bound evs := by
  intro r hmem
  have := List.all_eq_true.mp h (Event.timer r) hmem
  simpa using this

/-! ## Priority selection -/

theorem drives_of_fresh_joystick (s : F1TenthMultiplexer) (r : ClockReads)
    (c : AckermannDriveStamped) (hj : fresh s.m_joystick_ackermann_msg r.joystick_time c) :
    published_drives s r = [c.drive] := by
  simp [published_drives, timer_callback, validate_of_fresh hj, select_output]

theorem drives_of_fresh_gap_follow (s : F1TenthMultiplexer) (r : ClockReads)
    (g : AckermannDriveStamped)
    (hj : empty_or_expired s.m_joystick_ackermann_msg r.joystick_time)
    (hg : fresh s.m_gap_follow_ackermann_msg r.gap_follow_time g)
    (he : refresh_enabled s r.current_time = true) :
    published_drives s r = [g.drive] := by
  simp [published_drives, timer_callback, validate_of_fresh hg,
    validate_of_empty_or_expired hj, select_output, he]

theorem drives_of_nothing_eligible (s : F1TenthMultiplexer) (r : ClockReads)
    (hj : empty_or_expired s.m_joystick_ackermann_msg r.joystick_time)
    (hg : empty_or_expired s.m_gap_follow_ackermann_msg r.gap_follow_time ∨
      refresh_enabled s r.current_time = false) :
    published_drives s r = [AckermannDrive.zero] := by
  rcases hg with hg | he
  · simp [published_drives, timer_callback, validate_of_empty_or_expired hg,
      validate_of_empty_or_expired hj, select_output, AckermannDrive.zero]
  · cases hv : validate_ackermann_msg s.m_gap_follow_ackermann_msg r.gap_follow_time <;>
      simp [published_drives, timer_callback, hv, validate_of_empty_or_expired hj,
        select_output, AckermannDrive.zero, he]

theorem motion_of_drives {s : F1TenthMultiplexer} {r : ClockReads} {d : AckermannDrive}
    (h : published_drives s r = [d]) :
    published_motion s r = [(d.steering_angle, d.speed)] := by
  simp [published_motion, h, AckermannDrive.motion]

/-- C1 (priority), amended: a joystick command at most one second old at the clock
reading that `validate_ackermann_msg` takes for the joystick slot is the one
published, whatever the gap-follow slot and the enable flag hold. -/
theorem joystick_priority (s : F1TenthMultiplexer) (r : ClockReads)
    (c : AckermannDriveStamped) (hj : fresh s.m_joystick_ackermann_msg r.joystick_time c) :
    published_motion s r = [(c.drive.steering_angle, c.drive.speed)] ∧
      published_drives s r = [c.drive] := by
  have hd := drives_of_fresh_joystick s r c hj
  exact ⟨motion_of_drives hd, hd⟩

/-- Witness for C1: a neutral joystick command half a second old wins over a fresh,
enabled gap-follow command asking for motion. -/
theorem joystick_priority_witness :
    fresh (enabled_state (some neutral_joystick_msg)
        (some (gap_follow_msg_at 400000000))).m_joystick_ackermann_msg
        (reads_from 500000000).joystick_time neutral_joystick_msg ∧
      published_motion (enabled_state (some neutral_joystick_msg)
        (some (gap_follow_msg_at 400000000))) (reads_from 500000000) = [(0, 0)] :=
  ⟨by decide,
   (joystick_priority (enabled_state (some neutral_joystick_msg)
      (some (gap_follow_msg_at 400000000))) (reads_from 500000000) neutral_joystick_msg
      (by decide)).1⟩

/-- Counterexample to C1 as stated: the joystick command `(1, 2)` stamped at time
zero is exactly one second old at the tick time stamped on the output, the
clock has moved on 40 ns when the joystick slot is validated, and the tick
publishes the gap-follow command `(3, 4)`. -/
theorem joystick_priority_fails_at_tick_time :
    (reads_from 1000000000).ordered ∧
      fresh (enabled_state (some (joystick_msg_with 0 1 2))
        (some (gap_follow_msg_with 900000000 3 4))).m_joystick_ackermann_msg
        (reads_from 1000000000).current_time (joystick_msg_with 0 1 2) ∧
      (timer_callback (enabled_state (some (joystick_msg_with 0 1 2))
        (some (gap_follow_msg_with 900000000 3 4)))
        (reads_from 1000000000)).2.map (fun m => m.header.stamp) = [1000000000] ∧
      published_motion (enabled_state (some (joystick_msg_with 0 1 2))
        (some (gap_follow_msg_with 900000000 3 4))) (reads_from 1000000000) = [(3, 4)] ∧
      published_motion (enabled_state (some (joystick_msg_with 0 1 2))
        (some (gap_follow_msg_with 900000000 3 4))) (reads_from 1000000000) ≠
        [((joystick_msg_with 0 1 2).drive.steering_angle,
          (joystick_msg_with 0 1 2).drive.speed)] := by
  decide

/-- C2 (gated fallback), amended: with the joystick slot empty or expired at its
validation reading, a gap-follow command at most one second old at its own
validation reading is the one published when the enable flag is true after the
refresh check of the same tick. -/
theorem gap_follow_fallback (s : F1TenthMultiplexer) (r : ClockReads)
    (g : AckermannDriveStamped)
    (hj : empty_or_expired s.m_joystick_ackermann_msg r.joystick_time)
    (hg : fresh s.m_gap_follow_ackermann_msg r.gap_follow_time g)
    (he : (timer_callback s r).1.m_gap_follow_enabled = true) :
    published_motion s r = [(g.drive.steering_angle, g.drive.speed)] ∧
      published_drives s r = [g.drive] := by
  have hd := drives_of_fresh_gap_follow s r g hj hg he
  exact ⟨motion_of_drives hd, hd⟩

/-- Witness for C2: an expired joystick command, a gap-follow command exactly one
second old when the gap-follow slot is validated, enabled since time zero. -/
theorem gap_follow_fallback_witness :
    empty_or_expired (enabled_state (some (joystick_msg_at (-100)))
        (some (gap_follow_msg_at 0))).m_joystick_ackermann_msg
        (reads_from 999999920).joystick_time ∧
      fresh (enabled_state (some (joystick_msg_at (-100)))
        (some (gap_follow_msg_at 0))).m_gap_follow_ackermann_msg
        (reads_from 999999920).gap_follow_time (gap_follow_msg_at 0) ∧
      published_motion (enabled_state (some (joystick_msg_at (-100)))
        (some (gap_follow_msg_at 0))) (reads_from 999999920) = [(1 / 5, 1)] :=
  ⟨by decide, ⟨rfl, by decide⟩,
   (gap_follow_fallback (enabled_state (some (joystick_msg_at (-100)))
      (some (gap_follow_msg_at 0))) (reads_from 999999920) (gap_follow_msg_at 0)
      (by decide) ⟨rfl, by decide⟩ (by decide)).1⟩

/-- Counterexample to C2 as stated: no joystick command, the gap-follow command
`(3, 4)` stamped at time zero is exactly one second old at the tick time, the
flag is true after the refresh check, the clock has moved on 80 ns when the
gap-follow slot is validated, and the tick publishes `(0, 0)`. -/
theorem gap_follow_fallback_fails_at_tick_time :
    (reads_from 1000000000).ordered ∧
      empty_or_expired (enabled_state none
        (some (gap_follow_msg_with 0 3 4))).m_joystick_ackermann_msg
        (reads_from 1000000000).current_time ∧
      fresh (enabled_state none
        (some (gap_follow_msg_with 0 3 4))).m_gap_follow_ackermann_msg
        (reads_from 1000000000).current_time (gap_follow_msg_with 0 3 4) ∧
      (timer_callback (enabled_state none (some (gap_follow_msg_with 0 3 4)))
        (reads_from 1000000000)).1.m_gap_follow_enabled = true ∧
      published_motion (enabled_state none (some (gap_follow_msg_with 0 3 4)))
        (reads_from 1000000000) = [(0, 0)] ∧
      published_motion (enabled_state none (some (gap_follow_msg_with 0 3 4)))
        (reads_from 1000000000) ≠
        [((gap_follow_msg_with 0 3 4).drive.steering_angle,
          (gap_follow_msg_with 0 3 4).drive.speed)] := by
  decide

/-- C3 (safe default): on a clock that does not run backwards, with the joystick
slot empty or expired at the tick time, and the gap-follow slot empty or
expired at the tick time or the enable flag false after the refresh check of
the same tick, the published command has steering angle 0 and speed 0. -/
theorem safe_default (s : F1TenthMultiplexer) (r : ClockReads) (hord : r.ordered)
    (hj : empty_or_expired s.m_joystick_ackermann_msg r.current_time)
    (hg : empty_or_expired s.m_gap_follow_ackermann_msg r.current_time ∨
      (timer_callback s r).1.m_gap_follow_enabled = false) :
    published_motion s r = [(0, 0)] ∧ published_drives s r = [AckermannDrive.zero] := by
  have hj1 := empty_or_expired_mono hj hord.1
  have hg1 : empty_or_expired s.m_gap_follow_ackermann_msg r.gap_follow_time ∨
      refresh_enabled s r.current_time = false :=
    hg.imp (fun h => empty_or_expired_mono h (le_trans hord.1 hord.2)) (fun h => h)
  have hd := drives_of_nothing_eligible s r hj1 hg1
  exact ⟨motion_of_drives hd, hd⟩

/-- Witness for C3: no joystick command, a fresh gap-follow command, and an enable
flag that timed out one nanosecond ago. -/
theorem safe_default_witness :
    (reads_from 1000000001).ordered ∧
      empty_or_expired (enabled_state none
        (some (gap_follow_msg_at 900000000))).m_joystick_ackermann_msg
        (reads_from 1000000001).current_time ∧
      (timer_callback (enabled_state none (some (gap_follow_msg_at 900000000)))
        (reads_from 1000000001)).1.m_gap_follow_enabled = false ∧
      published_motion (enabled_state none (some (gap_follow_msg_at 900000000)))
        (reads_from 1000000001) = [(0, 0)] :=
  ⟨by decide, by decide, by decide,
   (safe_default (enabled_state none (some (gap_follow_msg_at 900000000)))
      (reads_from 1000000001) (by decide) (by decide) (Or.inr (by decide))).1⟩


/-! ## Expiry -/

/-- C4 (command expiry), amended: after a tick a slot is occupied by `c` exactly
when it held `c` before and `c` is at most one second old at the clock reading
that `validate_ackermann_msg` takes for that slot.  A command stamped `t` is
kept when that reading is at most `t + 1 s` (a joystick command is then the one
published), and when the reading is after `t + 1 s` the tick behaves as on the
same members with that slot empty.  On a clock that does not run backwards a
command is erased at every tick whose stamped time is after `t + 1 s`.  The
stamp of the published message is the reading taken at the top of the tick. -/
theorem command_expiry (s : F1TenthMultiplexer) (r : ClockReads) :
    (∀ c, (timer_callback s r).1.m_joystick_ackermann_msg = some c ↔
        (s.m_joystick_ackermann_msg = some c ∧
          r.joystick_time - c.header.stamp ≤ one_second)) ∧
    (∀ c, (timer_callback s r).1.m_gap_follow_ackermann_msg = some c ↔
        (s.m_gap_follow_ackermann_msg = some c ∧
          r.gap_follow_time - c.header.stamp ≤ one_second)) ∧
    (∀ c, s.m_joystick_ackermann_msg = some c →
        r.joystick_time ≤ c.header.stamp + one_second →
        (timer_callback s r).1.m_joystick_ackermann_msg = some c ∧
          published_drives s r = [c.drive]) ∧
    (∀ c, s.m_gap_follow_ackermann_msg = some c →
        r.gap_follow_time ≤ c.header.stamp + one_second →
        (timer_callback s r).1.m_gap_follow_ackermann_msg = some c) ∧
    (∀ c, s.m_joystick_ackermann_msg = some c →
        r.joystick_time > c.header.stamp + one_second →
        timer_callback s r =
          timer_callback { s with m_joystick_ackermann_msg := none } r) ∧
    (∀ c, s.m_gap_follow_ackermann_msg = some c →
        r.gap_follow_time > c.header.stamp + one_second →
        timer_callback s r =
          timer_callback { s with m_gap_follow_ackermann_msg := none } r) ∧
    (r.ordered → ∀ c, s.m_joystick_ackermann_msg = some c →
        r.current_time > c.header.stamp + one_second →
        (timer_callback s r).1.m_joystick_ackermann_msg = none) ∧
    (r.ordered → ∀ c, s.m_gap_follow_ackermann_msg = some c →
        r.current_time > c.header.stamp + one_second →
        (timer_callback s r).1.m_gap_follow_ackermann_msg = none) ∧
    (∀ m ∈ (timer_callback s r).2, m.header.stamp = r.current_time) := by
  refine ⟨fun c => ?_, fun c => ?_, fun c hc hw => ?_, fun c hc hw => ?_,
    fun c hc hl => ?_, fun c hc hl => ?_, fun hord c hc hl => ?_,
    fun hord c hc hl => ?_, ?_⟩
  · exact validate_eq_some_iff _ r.joystick_time c
  · exact validate_eq_some_iff _ r.gap_follow_time c
  · have hf : fresh s.m_joystick_ackermann_msg r.joystick_time c := ⟨hc, by linarith⟩
    exact ⟨validate_of_fresh hf, drives_of_fresh_joystick s r c hf⟩
  · exact validate_of_fresh ⟨hc, by linarith⟩
  · have hv := validate_of_late hc hl
    simp only [timer_callback, hv]
    rfl
  · have hv := validate_of_late hc hl
    simp only [timer_callback, hv]
    rfl
  · exact validate_of_late hc (lt_of_lt_of_le hl hord.1)
  · exact validate_of_late hc (lt_of_lt_of_le hl (le_trans hord.1 hord.2))
  · simp [timer_callback, Header.zero]

/-- Evaluation of C4 at the boundary: a joystick command stamped at time zero is
still published when the joystick slot is validated exactly one second
later. -/
theorem command_expiry_witness :
    (timer_callback (enabled_state (some (joystick_msg_at 0)) none)
        (reads_from 999999960)).1.m_joystick_ackermann_msg = some (joystick_msg_at 0) ∧
      published_drives (enabled_state (some (joystick_msg_at 0)) none)
        (reads_from 999999960) = [(joystick_msg_at 0).drive] :=
  (command_expiry (enabled_state (some (joystick_msg_at 0)) none)
    (reads_from 999999960)).2.2.1 (joystick_msg_at 0) rfl (by decide)

/-- Counterexample to C4 as stated: a joystick command stamped at time zero is
in the slot before a tick whose published stamp is exactly one second later, so
its age at the tick time is at most one second, yet the slot is empty after the
tick: the clock has moved on 40 ns when the slot is validated. -/
theorem command_expiry_fails_at_tick_time :
    (reads_from 1000000000).ordered ∧
      (enabled_state (some (joystick_msg_with 0 1 2)) none).m_joystick_ackermann_msg =
        some (joystick_msg_with 0 1 2) ∧
      (timer_callback (enabled_state (some (joystick_msg_with 0 1 2)) none)
        (reads_from 1000000000)).2.map (fun m => m.header.stamp) = [1000000000] ∧
      (1000000000 : Time) - (joystick_msg_with 0 1 2).header.stamp ≤ one_second ∧
      (timer_callback (enabled_state (some (joystick_msg_with 0 1 2)) none)
        (reads_from 1000000000)).1.m_joystick_ackermann_msg = none := by
  decide

/-- C5 (enable timeout): after an enable signal carrying `true` received at time
`t`, followed by any messages other than enable signals and any ticks at times
up to `t + 1 s`, the flag is still true and stays true over a further tick at a
time up to `t + 1 s`; a tick at a time after `t + 1 s` then leaves it false.
The time of a tick is the clock reading at the top of the callback. -/
theorem enable_timeout (s : F1TenthMultiplexer) (t : Time) (evs : List Event)
    (hno : ∀ e ∈ evs, Event.is_enable_signal e = false)
    (hticks : ticks_within (t + one_second) evs) :
    (run (gap_follow_enable_callback s true t) evs).m_gap_follow_enabled = true ∧
    (∀ r : ClockReads, r.current_time ≤ t + one_second →
      (timer_callback (run (gap_follow_enable_callback s true t) evs)
        r).1.m_gap_follow_enabled = true) ∧
    (∀ r : ClockReads, r.current_time > t + one_second →
      (timer_callback (run (gap_follow_enable_callback s true t) evs)
        r).1.m_gap_follow_enabled = false) := by
  obtain ⟨he, ht⟩ :=
    run_enabled_kept evs (gap_follow_enable_callback s true t) t hno hticks rfl rfl
  refine ⟨he, fun r hr => ?_, fun r hr => ?_⟩
  · exact refresh_enabled_within he (by rw [ht]; exact hr)
  · exact refresh_enabled_late _ (by rw [ht]; exact hr)

/-- Witness for C5: enabled at time zero, a gap-follow message and a tick at
exactly one second keep the flag; a tick one nanosecond later clears it. -/
theorem enable_timeout_witness :
    (∀ e ∈ [Event.gap_follow (gap_follow_msg_at 0), Event.timer (reads_from 1000000000)],
        Event.is_enable_signal e = false) ∧
      (run (gap_follow_enable_callback F1TenthMultiplexer.init true 0)
        [Event.gap_follow (gap_follow_msg_at 0),
          Event.timer (reads_from 1000000000)]).m_gap_follow_enabled = true ∧
      (timer_callback (run (gap_follow_enable_callback F1TenthMultiplexer.init true 0)
        [Event.gap_follow (gap_follow_msg_at 0), Event.timer (reads_from 1000000000)])
        (reads_from 1000000001)).1.m_gap_follow_enabled = false :=
  have hno : ∀ e ∈ [Event.gap_follow (gap_follow_msg_at 0),
      Event.timer (reads_from 1000000000)], Event.is_enable_signal e = false := by
    intro e he
    simp only [List.mem_cons, List.mem_singleton, List.not_mem_nil, or_false] at he
    rcases he with rfl | rfl <;> rfl
  have hticks : ticks_within (0 + one_second)
      [Event.gap_follow (gap_follow_msg_at 0), Event.timer (reads_from 1000000000)] :=
    ticks_within_of_check (by decide)
  ⟨hno,
   (enable_timeout F1TenthMultiplexer.init 0 _ hno hticks).1,
   (enable_timeout F1TenthMultiplexer.init 0 _ hno hticks).2.2 (reads_from 1000000001)
     (by decide)⟩


/-- C6 (one-directional timeout): a tick never turns a false flag true; a false
flag stays false through any ticks, command messages and enable signals
carrying `false`; and in every state reached from the constructed node a true
flag means the most recent enable signal carried `true`. -/
theorem enable_one_directional :
    (∀ (s : F1TenthMultiplexer) (r : ClockReads), s.m_gap_follow_enabled = false →
      (timer_callback s r).1.m_gap_follow_enabled = false) ∧
    (∀ (s : F1TenthMultiplexer) (evs : List Event), s.m_gap_follow_enabled = false →
      (∀ t, Event.gap_follow_enable true t ∉ evs) →
      (run s evs).m_gap_follow_enabled = false) ∧
    (∀ evs : List Event, (run F1TenthMultiplexer.init evs).m_gap_follow_enabled = true →
      ∃ t, last_enable_signal evs = some (true, t)) := by
  refine ⟨fun s r h => refresh_enabled_of_false r.current_time h,
    fun s evs hs hno => run_enabled_false evs s hno hs, fun evs hen => ?_⟩
  have hinv := enabled_reflects_last_signal evs
  cases hl : last_enable_signal evs with
  | none =>
    rw [hl] at hinv
    rw [hen] at hinv
    cases hinv
  | some r =>
    obtain ⟨d, t⟩ := r
    rw [hl] at hinv
    exact ⟨t, by rw [hinv.2 hen]⟩

/-! ## Message handlers -/

/-- C9: `joystick_callback` stores exactly the received message in the joystick
slot, whatever its stamp, and leaves the gap-follow slot, the enable flag and
the enable time as they were; `gap_follow_callback` does the same for the
gap-follow slot. -/
theorem command_handlers_overwrite (s : F1TenthMultiplexer) (cmd : AckermannDriveStamped) :
    ((joystick_callback s cmd).m_joystick_ackermann_msg = some cmd ∧
      (joystick_callback s cmd).m_gap_follow_ackermann_msg = s.m_gap_follow_ackermann_msg ∧
      (joystick_callback s cmd).m_gap_follow_enabled = s.m_gap_follow_enabled ∧
      (joystick_callback s cmd).m_gap_follow_enabled_time = s.m_gap_follow_enabled_time) ∧
    ((gap_follow_callback s cmd).m_gap_follow_ackermann_msg = some cmd ∧
      (gap_follow_callback s cmd).m_joystick_ackermann_msg = s.m_joystick_ackermann_msg ∧
      (gap_follow_callback s cmd).m_gap_follow_enabled = s.m_gap_follow_enabled ∧
      (gap_follow_callback s cmd).m_gap_follow_enabled_time = s.m_gap_follow_enabled_time) :=
  ⟨⟨rfl, rfl, rfl, rfl⟩, ⟨rfl, rfl, rfl, rfl⟩⟩

/-- C10: the enable lambda stores the receipt time and the received flag whatever
the members held, and leaves both slots as they were; after a signal carrying
`false`, a tick on a clock that does not run backwards, with the joystick slot
empty or expired at the tick time, publishes the zero command whatever the
gap-follow slot holds. -/
theorem enable_handler_overwrites (s : F1TenthMultiplexer) (data : Bool) (t : Time) :
    (gap_follow_enable_callback s data t).m_gap_follow_enabled = data ∧
    (gap_follow_enable_callback s data t).m_gap_follow_enabled_time = t ∧
    (gap_follow_enable_callback s data t).m_joystick_ackermann_msg =
      s.m_joystick_ackermann_msg ∧
    (gap_follow_enable_callback s data t).m_gap_follow_ackermann_msg =
      s.m_gap_follow_ackermann_msg ∧
    (∀ r : ClockReads, r.ordered →
      empty_or_expired s.m_joystick_ackermann_msg r.current_time →
      published_motion (gap_follow_enable_callback s false t) r = [(0, 0)] ∧
      (timer_callback (gap_follow_enable_callback s false t) r).1.m_gap_follow_enabled =
        false) := by
  refine ⟨rfl, rfl, rfl, rfl, fun r hord hj => ?_⟩
  have he : refresh_enabled (gap_follow_enable_callback s false t) r.current_time = false :=
    @refresh_enabled_of_false (gap_follow_enable_callback s false t) r.current_time rfl
  have hd := drives_of_nothing_eligible (gap_follow_enable_callback s false t) r
    (empty_or_expired_mono hj hord.1) (Or.inr he)
  exact ⟨motion_of_drives hd, he⟩

/-- Evaluation of C10: with a gap-follow command stamped at the tick time in the
slot and no joystick command, a tick right after an enable signal carrying
`false` publishes `(0, 0)`. -/
theorem enable_handler_overwrites_witness :
    published_motion (gap_follow_enable_callback
        (enabled_state none (some (gap_follow_msg_at 20000000))) false 10000000)
        (reads_from 20000000) = [(0, 0)] :=
  ((enable_handler_overwrites (enabled_state none (some (gap_follow_msg_at 20000000)))
      false 10000000).2.2.2.2 (reads_from 20000000) (by decide) (by decide)).1

/-! ## Absence of faults -/

/-- C8 (tick never fails): along every sequence of joystick, gap-follow and
enable messages and ticks from the constructed node no callback faults, and a
tick on the state reached returns the members and the published message of
`timer_callback` without a fault; the stored enable time is read only once an
enable signal has assigned it (the flag is true only in such states). -/
theorem tick_never_fails (evs : List Event) (r : ClockReads) :
    ∃ c, run_checked Instrumented.init evs = .ok c ∧
      c.members = run F1TenthMultiplexer.init evs ∧
      (c.members.m_gap_follow_enabled = true → c.enable_time_set = true) ∧
      timer_callback_checked c r =
        .ok ({ members := (timer_callback (run F1TenthMultiplexer.init evs) r).1,
               enable_time_set := c.enable_time_set },
             (timer_callback (run F1TenthMultiplexer.init evs) r).2) := by
  obtain ⟨c, hrun, hmem, hinv⟩ :=
    run_checked_ok evs Instrumented.init (fun h => by cases h)
  have hmem1 : c.members = run F1TenthMultiplexer.init evs := hmem
  refine ⟨c, hrun, hmem1, hinv, ?_⟩
  rw [← hmem1]
  exact timer_checked_eq c hinv r

/-! ## Ticks in sequence -/

theorem validate_validate {slot : Option AckermannDriveStamped} {now later : Time}
    (h : now ≤ later) :
    validate_ackermann_msg (validate_ackermann_msg slot now) later =
      validate_ackermann_msg slot later := by
  cases slot with
  | none => rfl
  | some m =>
    by_cases h1 : now - m.header.stamp > one_second
    · have h2 : later - m.header.stamp > one_second := by linarith
      simp [validate_ackermann_msg, h1, h2]
    · simp [validate_ackermann_msg, h1]

theorem refresh_refresh (s : F1TenthMultiplexer) (a : ClockReads) {later : Time}
    (h : a.current_time ≤ later) :
    refresh_enabled (timer_callback s a).1 later = refresh_enabled s later := by
  cases hen : s.m_gap_follow_enabled with
  | false =>
    rw [refresh_enabled_of_false later hen]
    exact refresh_enabled_of_false later (refresh_enabled_of_false a.current_time hen)
  | true =>
    by_cases h1 : a.current_time - s.m_gap_follow_enabled_time > one_second
    · have h2 : later - s.m_gap_follow_enabled_time > one_second := by linarith
      simp [refresh_enabled, timer_callback, hen, h1, h2]
    · simp [refresh_enabled, timer_callback, hen, h1]

theorem tick_motions_idle (ticks : List ClockReads) :
    ∀ s : F1TenthMultiplexer, s.m_joystick_ackermann_msg = none →
      s.m_gap_follow_ackermann_msg = none →
      tick_motions s ticks = ticks.map (fun _ => [((0 : float32), (0 : float32))]) := by
  induction ticks with
  | nil => intro s _ _; rfl
  | cons r rest ih =>
    intro s hj hg
    have hd := drives_of_nothing_eligible s r (hj ▸ empty_or_expired_none _)
      (Or.inl (hg ▸ empty_or_expired_none _))
    have hpost := ih (timer_callback s r).1
      (by show validate_ackermann_msg s.m_joystick_ackermann_msg r.joystick_time = none
          rw [hj]; rfl)
      (by show validate_ackermann_msg s.m_gap_follow_ackermann_msg r.gap_follow_time = none
          rw [hg]; rfl)
    simp only [tick_motions, List.map_cons, hpost]
    rw [motion_of_drives hd]
    rfl

theorem tick_motions_joystick (c : AckermannDriveStamped) (ticks : List ClockReads) :
    ∀ s : F1TenthMultiplexer, s.m_joystick_ackermann_msg = some c →
      s.m_gap_follow_ackermann_msg = none →
      ticks.Pairwise (fun a b => a.joystick_time ≤ b.joystick_time) →
      tick_motions s ticks = ticks.map (fun r =>
        if r.joystick_time ≤ c.header.stamp + one_second then
          [(c.drive.steering_angle, c.drive.speed)]
        else [(0, 0)]) := by
  induction ticks with
  | nil => intro s _ _ _; rfl
  | cons r rest ih =>
    intro s hj hg hsorted
    rw [List.pairwise_cons] at hsorted
    have hgpost : (timer_callback s r).1.m_gap_follow_ackermann_msg = none := by
      show validate_ackermann_msg s.m_gap_follow_ackermann_msg r.gap_follow_time = none
      rw [hg]; rfl
    by_cases hnow : r.joystick_time ≤ c.header.stamp + one_second
    · have hf : fresh s.m_joystick_ackermann_msg r.joystick_time c := ⟨hj, by linarith⟩
      have hpost := ih (timer_callback s r).1 (validate_of_fresh hf) hgpost hsorted.2
      simp only [tick_motions, List.map_cons, hpost, if_pos hnow]
      rw [motion_of_drives (drives_of_fresh_joystick s r c hf)]
    · have hlate : r.joystick_time > c.header.stamp + one_second := not_le.mp hnow
      have hexp : empty_or_expired s.m_joystick_ackermann_msg r.joystick_time := by
        intro c1 hc1
        rw [hj] at hc1
        cases hc1
        linarith
      have hd := drives_of_nothing_eligible s r hexp
        (Or.inl (hg ▸ empty_or_expired_none _))
      have hpost := tick_motions_idle rest (timer_callback s r).1
        (validate_of_late hj hlate) hgpost
      have hrest : rest.map (fun x =>
          if x.joystick_time ≤ c.header.stamp + one_second then
            [(c.drive.steering_angle, c.drive.speed)]
          else [((0 : float32), (0 : float32))]) =
          rest.map (fun _ => [((0 : float32), (0 : float32))]) := by
        apply List.map_congr_left
        intro x hx
        have hxl : ¬ x.joystick_time ≤ c.header.stamp + one_second := by
          have := hsorted.1 x hx
          intro hle
          linarith
        simp only [if_neg hxl]
      simp only [tick_motions, List.map_cons, hpost, if_neg hnow, hrest]
      rw [motion_of_drives hd]
      rfl

theorem tick_motions_gap_follow (c : AckermannDriveStamped) (ticks : List ClockReads) :
    ∀ s : F1TenthMultiplexer, s.m_joystick_ackermann_msg = none →
      s.m_gap_follow_ackermann_msg = some c → s.m_gap_follow_enabled = true →
      s.m_gap_follow_enabled_time = c.header.stamp →
      (∀ r ∈ ticks, r.current_time ≤ r.gap_follow_time) →
      ticks.Pairwise (fun a b => a.gap_follow_time ≤ b.gap_follow_time) →
      tick_motions s ticks = ticks.map (fun r =>
        if r.gap_follow_time ≤ c.header.stamp + one_second then
          [(c.drive.steering_angle, c.drive.speed)]
        else [(0, 0)]) := by
  induction ticks with
  | nil => intro s _ _ _ _ _ _; rfl
  | cons r rest ih =>
    intro s hj hg hen htime hord hsorted
    rw [List.pairwise_cons] at hsorted
    have hjexp : empty_or_expired s.m_joystick_ackermann_msg r.joystick_time :=
      hj ▸ empty_or_expired_none _
    have hjpost : (timer_callback s r).1.m_joystick_ackermann_msg = none := by
      show validate_ackermann_msg s.m_joystick_ackermann_msg r.joystick_time = none
      rw [hj]; rfl
    have hr0 : r.current_time ≤ r.gap_follow_time := hord r (List.mem_cons_self _ _)
    by_cases hnow : r.gap_follow_time ≤ c.header.stamp + one_second
    · have hf : fresh s.m_gap_follow_ackermann_msg r.gap_follow_time c :=
        ⟨hg, by linarith⟩
      have hr : refresh_enabled s r.current_time = true :=
        refresh_enabled_within hen (by rw [htime]; linarith)
      have hpost := ih (timer_callback s r).1 hjpost (validate_of_fresh hf) hr htime
        (fun x hx => hord x (List.mem_cons_of_mem _ hx)) hsorted.2
      simp only [tick_motions, List.map_cons, hpost, if_pos hnow]
      rw [motion_of_drives (drives_of_fresh_gap_follow s r c hjexp hf hr)]
    · have hlate : r.gap_follow_time > c.header.stamp + one_second := not_le.mp hnow
      have hexp : empty_or_expired s.m_gap_follow_ackermann_msg r.gap_follow_time := by
        intro c1 hc1
        rw [hg] at hc1
        cases hc1
        linarith
      have hd := drives_of_nothing_eligible s r hjexp (Or.inl hexp)
      have hpost := tick_motions_idle rest (timer_callback s r).1 hjpost
        (validate_of_late hg hlate)
      have hrest : rest.map (fun x =>
          if x.gap_follow_time ≤ c.header.stamp + one_second then
            [(c.drive.steering_angle, c.drive.speed)]
          else [((0 : float32), (0 : float32))]) =
          rest.map (fun _ => [((0 : float32), (0 : float32))]) := by
        apply List.map_congr_left
        intro x hx
        have hxl : ¬ x.gap_follow_time ≤ c.header.stamp + one_second := by
          have := hsorted.1 x hx
          intro hle
          linarith
        simp only [if_neg hxl]
      simp only [tick_motions, List.map_cons, hpost, if_neg hnow, hrest]
      rw [motion_of_drives hd]
      rfl

theorem ticks_within_of_append {bound : Time} {evs : List Event} {e : Event}
    (h : ticks_within bound (evs ++ [e])) : ticks_within bound evs :=
  fun r hmem => h r (List.mem_append_left _ hmem)

theorem gap_follow_reads_within_of_append {bound : Time} {evs : List Event} {e : Event}
    (h : gap_follow_reads_within bound (evs ++ [e])) : gap_follow_reads_within bound evs :=
  fun r hmem => h r (List.mem_append_left _ hmem)

theorem last_gap_follow_append (evs : List Event) (e : Event) :
    last_gap_follow (evs ++ [e]) =
      match e with
      | .gap_follow msg => some msg
      | _ => last_gap_follow evs := by
  induction evs with
  | nil => cases e <;> rfl
  | cons e1 evs ih =>
    rw [List.cons_append, last_gap_follow, ih]
    cases e <;> rfl

theorem run_no_joystick (evs : List Event) :
    ∀ s : F1TenthMultiplexer, (∀ e ∈ evs, Event.is_joystick e = false) →
      s.m_joystick_ackermann_msg = none → (run s evs).m_joystick_ackermann_msg = none := by
  induction evs with
  | nil => intro s _ hs; exact hs
  | cons e evs ih =>
    intro s hno hs
    rw [run_cons]
    apply ih _ (fun e1 he1 => hno e1 (List.mem_cons_of_mem _ he1))
    have he := hno e (List.mem_cons_self _ _)
    cases e with
    | joystick msg => simp [Event.is_joystick] at he
    | gap_follow msg => exact hs
    | gap_follow_enable data now => exact hs
    | timer r =>
      show validate_ackermann_msg s.m_joystick_ackermann_msg r.joystick_time = none
      rw [hs]; rfl

theorem run_gap_follow_kept (s : F1TenthMultiplexer) (bound : Time)
    (g : AckermannDriveStamped) (hage : bound - g.header.stamp ≤ one_second)
    (evs : List Event) :
    gap_follow_reads_within bound evs → last_gap_follow evs = some g →
      (run s evs).m_gap_follow_ackermann_msg = some g := by
  induction evs using List.reverseRecOn with
  | nil => intro _ h; cases h
  | append_singleton evs e ih =>
    intro hticks hlast
    rw [last_gap_follow_append] at hlast
    rw [run_append]
    have hpre := gap_follow_reads_within_of_append hticks
    cases e with
    | gap_follow msg =>
      cases hlast
      rfl
    | joystick msg => exact ih hpre hlast
    | gap_follow_enable data t => exact ih hpre hlast
    | timer r =>
      have ht : r.gap_follow_time ≤ bound :=
        hticks r (List.mem_append_right _ (List.mem_singleton.mpr rfl))
      have hslot := ih hpre hlast
      exact validate_of_fresh ⟨hslot, by linarith⟩

theorem run_enable_kept (s : F1TenthMultiplexer) (bound te : Time)
    (hage : bound - te ≤ one_second) (evs : List Event) :
    ticks_within bound evs → last_enable_signal evs = some (true, te) →
      (run s evs).m_gap_follow_enabled = true ∧
        (run s evs).m_gap_follow_enabled_time = te := by
  induction evs using List.reverseRecOn with
  | nil => intro _ h; cases h
  | append_singleton evs e ih =>
    intro hticks hlast
    rw [last_enable_signal_append] at hlast
    rw [run_append]
    have hpre := ticks_within_of_append hticks
    cases e with
    | gap_follow_enable data t =>
      cases hlast
      exact ⟨rfl, rfl⟩
    | joystick msg => exact ih hpre hlast
    | gap_follow msg => exact ih hpre hlast
    | timer r =>
      have ht : r.current_time ≤ bound :=
        hticks r (List.mem_append_right _ (List.mem_singleton.mpr rfl))
      obtain ⟨hen, htime⟩ := ih hpre hlast
      refine ⟨?_, htime⟩
      exact refresh_enabled_within hen (by rw [htime]; linarith)

/-- C11: the constructed node has both slots empty and the flag false, and a tick
on it at any time publishes the zero command and leaves the members as they
were. -/
theorem initial_state_tick (r : ClockReads) :
    F1TenthMultiplexer.init.m_joystick_ackermann_msg = none ∧
    F1TenthMultiplexer.init.m_gap_follow_ackermann_msg = none ∧
    F1TenthMultiplexer.init.m_gap_follow_enabled = false ∧
    published_motion F1TenthMultiplexer.init r = [(0, 0)] ∧
    (timer_callback F1TenthMultiplexer.init r).1 = F1TenthMultiplexer.init := by
  refine ⟨rfl, rfl, rfl, ?_, rfl⟩
  simp [published_motion, published_drives, timer_callback, select_output,
    validate_ackermann_msg, F1TenthMultiplexer.init, AckermannDrive.motion,
    AckermannDrive.zero]

/-- C15: when each clock reading of a tick is no later than the matching reading
of a later tick, running both leaves the same members and publishes the same
message at the later tick as the later tick alone; a tick repeated with the
same readings leaves the members of the first. -/
theorem intermediate_tick_irrelevant (s : F1TenthMultiplexer) (a b : ClockReads)
    (h : a.before b) :
    timer_callback (timer_callback s a).1 b = timer_callback s b ∧
      (timer_callback (timer_callback s a).1 a).1 = (timer_callback s a).1 := by
  have key : ∀ x y : ClockReads, x.before y →
      timer_callback (timer_callback s x).1 y = timer_callback s y := by
    intro x y hxy
    have hr := refresh_refresh s x hxy.1
    have hj1 : validate_ackermann_msg (timer_callback s x).1.m_joystick_ackermann_msg
        y.joystick_time = validate_ackermann_msg s.m_joystick_ackermann_msg y.joystick_time :=
      @validate_validate s.m_joystick_ackermann_msg x.joystick_time y.joystick_time hxy.2.1
    have hg1 : validate_ackermann_msg (timer_callback s x).1.m_gap_follow_ackermann_msg
        y.gap_follow_time =
        validate_ackermann_msg s.m_gap_follow_ackermann_msg y.gap_follow_time :=
      @validate_validate s.m_gap_follow_ackermann_msg x.gap_follow_time y.gap_follow_time
        hxy.2.2
    unfold timer_callback
    simp only []
    unfold timer_callback at hr hj1 hg1
    simp only [] at hr hj1 hg1
    rw [hr, hj1, hg1]
  refine ⟨key a b h, ?_⟩
  rw [key a a ⟨le_rfl, le_rfl, le_rfl⟩]

/-- Witness for C15: a joystick command stamped at time zero, ticks at half a
second and at one and a half seconds. -/
theorem intermediate_tick_irrelevant_witness :
    (reads_from 500000000).before (reads_from 1500000000) ∧
      timer_callback (timer_callback (enabled_state (some (joystick_msg_at 0))
        (some (gap_follow_msg_at 400000000))) (reads_from 500000000)).1
        (reads_from 1500000000) =
      timer_callback (enabled_state (some (joystick_msg_at 0))
        (some (gap_follow_msg_at 400000000))) (reads_from 1500000000) :=
  ⟨by decide,
   (intermediate_tick_irrelevant (enabled_state (some (joystick_msg_at 0))
      (some (gap_follow_msg_at 400000000))) (reads_from 500000000)
      (reads_from 1500000000) (by decide)).1⟩

/-- C16 (frame of the tick): a tick leaves the stored enable time as it was,
leaves each slot as it was or empties it, and validates both slots before
selecting: a gap-follow command more than one second old when its slot is
validated is erased on a tick that keeps and publishes a joystick command fresh
at its own validation; on a clock that does not run backwards this covers every
gap-follow command more than one second old at the tick time. -/
theorem tick_frame (s : F1TenthMultiplexer) (r : ClockReads) :
    (timer_callback s r).1.m_gap_follow_enabled_time = s.m_gap_follow_enabled_time ∧
    ((timer_callback s r).1.m_joystick_ackermann_msg = s.m_joystick_ackermann_msg ∨
      (timer_callback s r).1.m_joystick_ackermann_msg = none) ∧
    ((timer_callback s r).1.m_gap_follow_ackermann_msg = s.m_gap_follow_ackermann_msg ∨
      (timer_callback s r).1.m_gap_follow_ackermann_msg = none) ∧
    (∀ c g, fresh s.m_joystick_ackermann_msg r.joystick_time c →
      s.m_gap_follow_ackermann_msg = some g →
      (r.gap_follow_time - g.header.stamp > one_second ∨
        (r.ordered ∧ r.current_time - g.header.stamp > one_second)) →
      (timer_callback s r).1.m_gap_follow_ackermann_msg = none ∧
        (timer_callback s r).1.m_joystick_ackermann_msg = some c ∧
        published_drives s r = [c.drive]) := by
  have hslot : ∀ (slot : Option AckermannDriveStamped) (t : Time),
      validate_ackermann_msg slot t = slot ∨ validate_ackermann_msg slot t = none := by
    intro slot t
    cases slot with
    | none => exact Or.inl rfl
    | some m =>
      by_cases h1 : t - m.header.stamp > one_second
      · exact Or.inr (by simp [validate_ackermann_msg, h1])
      · exact Or.inl (by simp [validate_ackermann_msg, h1])
  refine ⟨rfl, hslot _ _, hslot _ _, fun c g hc hg hlate => ?_⟩
  refine ⟨?_, validate_of_fresh hc, drives_of_fresh_joystick s r c hc⟩
  have hstale : r.gap_follow_time - g.header.stamp > one_second := by
    rcases hlate with h | ⟨hord, h⟩
    · exact h
    · have := le_trans hord.1 hord.2
      linarith
  exact validate_of_empty_or_expired (fun g1 hg1 => by
    rw [hg] at hg1
    cases hg1
    exact hstale)

/-- Evaluation of C16: a gap-follow command two seconds old is erased on a tick
that publishes a joystick command stamped at the tick time. -/
theorem tick_frame_witness :
    (timer_callback (enabled_state (some (joystick_msg_at 2000000000))
        (some (gap_follow_msg_at 0)))
        (reads_from 2000000000)).1.m_gap_follow_ackermann_msg = none ∧
      published_drives (enabled_state (some (joystick_msg_at 2000000000))
        (some (gap_follow_msg_at 0))) (reads_from 2000000000) =
        [(joystick_msg_at 2000000000).drive] :=
  have h := (tick_frame (enabled_state (some (joystick_msg_at 2000000000))
      (some (gap_follow_msg_at 0))) (reads_from 2000000000)).2.2.2
      (joystick_msg_at 2000000000) (gap_follow_msg_at 0) ⟨rfl, by decide⟩ rfl
      (Or.inr ⟨by decide, by decide⟩)
  ⟨h.1, h.2.2⟩

/-! ## Scenarios -/

/-- C12 (joystick scenario), amended: from the constructed node, after a joystick
command `c` stamped `t` and an enable signal carrying `true` at `t`, with no
gap-follow command and no further message, the ticks of any sequence whose
joystick validation readings do not decrease publish the motion values of `c`
at every tick whose joystick validation reading is at most `t + 1 s` and
`(0, 0)` at every tick whose joystick validation reading is after `t + 1 s`. -/
theorem joystick_scenario (c : AckermannDriveStamped) (t : Time) (ticks : List ClockReads)
    (hstamp : c.header.stamp = t)
    (hsorted : ticks.Pairwise (fun a b => a.joystick_time ≤ b.joystick_time)) :
    tick_motions (run F1TenthMultiplexer.init
        [Event.joystick c, Event.gap_follow_enable true t]) ticks =
      ticks.map (fun r =>
        if r.joystick_time ≤ t + one_second then [(c.drive.steering_angle, c.drive.speed)]
        else [(0, 0)]) := by
  subst hstamp
  exact tick_motions_joystick c ticks _ rfl rfl hsorted

/-- Witness for C12: the command `(1/10, 2)` stamped at time zero; ticks at 0 ms,
at 20 ms and 40 ns before 1000 ms publish it, ticks at 1000 ms and 2000 ms
publish `(0, 0)`. -/
theorem joystick_scenario_witness :
    (joystick_msg_at 0).header.stamp = 0 ∧
      List.Pairwise (fun a b => a.joystick_time ≤ b.joystick_time)
        [reads_from 0, reads_from 20000000, reads_from 999999960,
          reads_from 1000000000, reads_from 2000000000] ∧
      tick_motions (run F1TenthMultiplexer.init
          [Event.joystick (joystick_msg_at 0), Event.gap_follow_enable true 0])
          [reads_from 0, reads_from 20000000, reads_from 999999960,
            reads_from 1000000000, reads_from 2000000000] =
        [[(1 / 10, 2)], [(1 / 10, 2)], [(1 / 10, 2)], [(0, 0)], [(0, 0)]] :=
  ⟨rfl, by decide,
   (joystick_scenario (joystick_msg_at 0) 0
      [reads_from 0, reads_from 20000000, reads_from 999999960,
        reads_from 1000000000, reads_from 2000000000] rfl (by decide)).trans
      (by rfl)⟩

/-- Counterexample to C12 as stated: the joystick command `(1, 2)` stamped at
time zero and an enable signal at time zero; a single tick whose stamped time
is exactly 1000 ms, inside `[t, t + 1000 ms]`, publishes `(0, 0)`: the clock
has moved on 40 ns when the joystick slot is validated. -/
theorem joystick_scenario_fails_at_tick_time :
    (reads_from 1000000000).ordered ∧
      (joystick_msg_with 0 1 2).header.stamp = 0 ∧
      (0 : Time) ≤ (reads_from 1000000000).current_time ∧
      (reads_from 1000000000).current_time ≤ 0 + one_second ∧
      tick_motions (run F1TenthMultiplexer.init
          [Event.joystick (joystick_msg_with 0 1 2), Event.gap_follow_enable true 0])
          [reads_from 1000000000] = [[(0, 0)]] ∧
      tick_motions (run F1TenthMultiplexer.init
          [Event.joystick (joystick_msg_with 0 1 2), Event.gap_follow_enable true 0])
          [reads_from 1000000000] ≠
        [[((joystick_msg_with 0 1 2).drive.steering_angle,
          (joystick_msg_with 0 1 2).drive.speed)]] := by
  decide

/-- C13 (gap-follow scenario), amended: from the constructed node, with no
joystick command, after a gap-follow command `c` stamped `t` and an enable
signal carrying `true` at `t`, neither refreshed, the ticks of any sequence on
a clock that does not run backwards publish the motion values of `c` at every
tick whose gap-follow validation reading is at most `t + 1 s` and `(0, 0)` at
every later tick.  The flag is kept exactly at ticks whose time is at most
`t + 1 s`, the command exactly at ticks whose gap-follow validation reading is
at most `t + 1 s`. -/
theorem gap_follow_scenario (c : AckermannDriveStamped) (t : Time) (ticks : List ClockReads)
    (hstamp : c.header.stamp = t)
    (hord : ∀ r ∈ ticks, r.current_time ≤ r.gap_follow_time)
    (hsorted : ticks.Pairwise (fun a b => a.gap_follow_time ≤ b.gap_follow_time)) :
    tick_motions (run F1TenthMultiplexer.init
        [Event.gap_follow c, Event.gap_follow_enable true t]) ticks =
      ticks.map (fun r =>
        if r.gap_follow_time ≤ t + one_second then
          [(c.drive.steering_angle, c.drive.speed)]
        else [(0, 0)]) ∧
    (∀ r : ClockReads,
      ((timer_callback (run F1TenthMultiplexer.init
        [Event.gap_follow c, Event.gap_follow_enable true t])
        r).1.m_gap_follow_enabled = true ↔ r.current_time ≤ t + one_second) ∧
      ((timer_callback (run F1TenthMultiplexer.init
        [Event.gap_follow c, Event.gap_follow_enable true t])
        r).1.m_gap_follow_ackermann_msg = some c ↔ r.gap_follow_time ≤ t + one_second) ∧
      (r.gap_follow_time > t + one_second →
        (timer_callback (run F1TenthMultiplexer.init
          [Event.gap_follow c, Event.gap_follow_enable true t])
          r).1.m_gap_follow_ackermann_msg = none)) := by
  subst hstamp
  refine ⟨tick_motions_gap_follow c ticks _ rfl rfl rfl rfl hord hsorted,
    fun r => ⟨?_, ?_, fun hl => ?_⟩⟩
  · constructor
    · intro hen
      by_contra hgt
      have hf := @refresh_enabled_late (run F1TenthMultiplexer.init
        [Event.gap_follow c, Event.gap_follow_enable true c.header.stamp])
        r.current_time (not_le.mp hgt)
      have hen1 : refresh_enabled (run F1TenthMultiplexer.init
        [Event.gap_follow c, Event.gap_follow_enable true c.header.stamp])
        r.current_time = true := hen
      rw [hf] at hen1
      cases hen1
    · intro hle
      exact @refresh_enabled_within (run F1TenthMultiplexer.init
        [Event.gap_follow c, Event.gap_follow_enable true c.header.stamp])
        r.current_time rfl hle
  · have hiff := validate_eq_some_iff (some c) r.gap_follow_time c
    constructor
    · intro h
      have := (hiff.mp h).2
      linarith
    · intro h
      exact hiff.mpr ⟨rfl, by linarith⟩
  · exact @validate_of_late _ r.gap_follow_time c rfl hl

/-- Witness for C13: the command `(1/5, 1)` stamped at time zero; ticks at 0 ms,
at 500 ms and 80 ns before 1000 ms publish it, ticks at 1000 ms and 3000 ms
publish `(0, 0)`. -/
theorem gap_follow_scenario_witness :
    (gap_follow_msg_at 0).header.stamp = 0 ∧
      List.Pairwise (fun a b => a.gap_follow_time ≤ b.gap_follow_time)
        [reads_from 0, reads_from 500000000, reads_from 999999920,
          reads_from 1000000000, reads_from 3000000000] ∧
      tick_motions (run F1TenthMultiplexer.init
          [Event.gap_follow (gap_follow_msg_at 0), Event.gap_follow_enable true 0])
          [reads_from 0, reads_from 500000000, reads_from 999999920,
            reads_from 1000000000, reads_from 3000000000] =
        [[(1 / 5, 1)], [(1 / 5, 1)], [(1 / 5, 1)], [(0, 0)], [(0, 0)]] :=
  ⟨rfl, by decide,
   (gap_follow_scenario (gap_follow_msg_at 0) 0
      [reads_from 0, reads_from 500000000, reads_from 999999920,
        reads_from 1000000000, reads_from 3000000000] rfl (by decide) (by decide)).1.trans
      (by rfl)⟩

/-- Counterexample to C13 as stated: the gap-follow command `(3, 4)` stamped at
time zero and an enable signal at time zero; a single tick whose stamped time
is exactly 1000 ms keeps the flag, erases the command and publishes `(0, 0)`:
the clock has moved on 80 ns when the gap-follow slot is validated, so the
command and the flag do not expire at the same tick. -/
theorem gap_follow_scenario_fails_at_tick_time :
    (reads_from 1000000000).ordered ∧
      (gap_follow_msg_with 0 3 4).header.stamp = 0 ∧
      (reads_from 1000000000).current_time ≤ 0 + one_second ∧
      (timer_callback (run F1TenthMultiplexer.init
          [Event.gap_follow (gap_follow_msg_with 0 3 4), Event.gap_follow_enable true 0])
          (reads_from 1000000000)).1.m_gap_follow_enabled = true ∧
      (timer_callback (run F1TenthMultiplexer.init
          [Event.gap_follow (gap_follow_msg_with 0 3 4), Event.gap_follow_enable true 0])
          (reads_from 1000000000)).1.m_gap_follow_ackermann_msg = none ∧
      tick_motions (run F1TenthMultiplexer.init
          [Event.gap_follow (gap_follow_msg_with 0 3 4), Event.gap_follow_enable true 0])
          [reads_from 1000000000] = [[(0, 0)]] ∧
      tick_motions (run F1TenthMultiplexer.init
          [Event.gap_follow (gap_follow_msg_with 0 3 4), Event.gap_follow_enable true 0])
          [reads_from 1000000000] ≠
        [[((gap_follow_msg_with 0 3 4).drive.steering_angle,
          (gap_follow_msg_with 0 3 4).drive.speed)]] := by
  decide

/-- C14 (continuous passthrough): after any events from the constructed node
with no joystick message, at a tick whose readings are no earlier than the
matching readings of the ticks before it, when the most recently received
gap-follow command is at most one second old at the gap-follow validation
reading (as when one stamped at receipt arrives every 500 ms and the tick
takes less than 500 ms) and the most recent enable signal carried `true` and is
at most one second old at the tick time (the enable signal is refreshed within
its window), the tick publishes the motion values of that most recent
gap-follow command. -/
theorem continuous_passthrough (pre : List Event) (r : ClockReads)
    (g : AckermannDriveStamped) (te : Time)
    (hclock : ticks_within r.current_time pre)
    (hgclock : gap_follow_reads_within r.gap_follow_time pre)
    (hnoj : ∀ e ∈ pre, Event.is_joystick e = false)
    (hg : last_gap_follow pre = some g)
    (hgage : r.gap_follow_time - g.header.stamp ≤ one_second)
    (he : last_enable_signal pre = some (true, te))
    (heage : r.current_time - te ≤ one_second) :
    published_motion (run F1TenthMultiplexer.init pre) r =
      [(g.drive.steering_angle, g.drive.speed)] := by
  have hj := run_no_joystick pre F1TenthMultiplexer.init hnoj rfl
  have hslot := run_gap_follow_kept F1TenthMultiplexer.init r.gap_follow_time g hgage pre
    hgclock hg
  obtain ⟨hen, htime⟩ :=
    run_enable_kept F1TenthMultiplexer.init r.current_time te heage pre hclock he
  have hr : refresh_enabled (run F1TenthMultiplexer.init pre) r.current_time = true :=
    refresh_enabled_within hen (by rw [htime]; linarith)
  exact motion_of_drives (drives_of_fresh_gap_follow _ r g
    (hj ▸ empty_or_expired_none _) ⟨hslot, hgage⟩ hr)

/-- Witness for C14: enable at 0 ms and again at 900 ms, gap-follow commands at
0, 500, 1000 and 1500 ms with different values, ticks in between; the tick at
1500 ms publishes the command received at 1500 ms. -/
theorem continuous_passthrough_witness :
    ticks_within (reads_from 1500000000).current_time
      [Event.gap_follow_enable true 0, Event.gap_follow (gap_follow_msg_with 0 1 1),
        Event.timer (reads_from 0), Event.timer (reads_from 20000000),
        Event.gap_follow (gap_follow_msg_with 500000000 2 1),
        Event.timer (reads_from 500000000),
        Event.gap_follow_enable true 900000000,
        Event.gap_follow (gap_follow_msg_with 1000000000 3 1),
        Event.timer (reads_from 1000000000),
        Event.gap_follow (gap_follow_msg_with 1500000000 4 2)] ∧
      published_motion (run F1TenthMultiplexer.init
        [Event.gap_follow_enable true 0, Event.gap_follow (gap_follow_msg_with 0 1 1),
          Event.timer (reads_from 0), Event.timer (reads_from 20000000),
          Event.gap_follow (gap_follow_msg_with 500000000 2 1),
          Event.timer (reads_from 500000000),
          Event.gap_follow_enable true 900000000,
          Event.gap_follow (gap_follow_msg_with 1000000000 3 1),
          Event.timer (reads_from 1000000000),
          Event.gap_follow (gap_follow_msg_with 1500000000 4 2)])
        (reads_from 1500000000) = [(4, 2)] :=
  ⟨ticks_within_of_check (by decide),
   continuous_passthrough _ (reads_from 1500000000) (gap_follow_msg_with 1500000000 4 2)
     900000000 (ticks_within_of_check (by decide))
     (gap_follow_reads_within_of_check (by decide)) (by decide) rfl (by decide) rfl
     (by decide)⟩

/-- Without a second enable signal the passthrough stops: enabled at 0 ms only,
with gap-follow commands at 0, 500, 1000 and 1500 ms, the tick at 1500 ms
publishes `(0, 0)`. -/
theorem passthrough_needs_enable_refresh :
    published_motion (run F1TenthMultiplexer.init
      [Event.gap_follow_enable true 0, Event.gap_follow (gap_follow_msg_with 0 1 1),
        Event.gap_follow (gap_follow_msg_with 500000000 2 1),
        Event.gap_follow (gap_follow_msg_with 1000000000 3 1),
        Event.gap_follow (gap_follow_msg_with 1500000000 4 2)])
      (reads_from 1500000000) = [(0, 0)] := by
  decide

/-! ## Publishing -/

/-- C7: every `timer_callback` publishes exactly one message, and its stamp is
the clock reading taken at the top of that tick. -/
theorem publish_exactly_once (s : F1TenthMultiplexer) (r : ClockReads) :
    (timer_callback s r).2.length = 1 ∧
      ∃ m, (timer_callback s r).2 = [m] ∧ m.header.stamp = r.current_time := by
  refine ⟨rfl, _, rfl, rfl⟩


end F1Tenth
